import Mathlib

/-!
Shallow embedding of the observability-and-accounting pipeline of the
Docker_grafana repository (Flask-app), translated from the Python sources:
`services/token_calculator.py`, `services/agent_service.py`,
`services/framework_manager.py`, `services/database.py`, `core/tracing.py`.

Modelling conventions:
- Python text is modelled as `List Char` (wrapped into `String` at the API
  boundary); only the ASCII behaviour of case folding and whitespace is
  exercised by the inputs below.
- Python floats are modelled as exact rationals; `round(x, 6)` is modelled
  as decimal rounding half-to-even at six places (`pyRound6`).
- The external `tiktoken` tokenizer is an opaque parameter `tik` of the
  functions that may call it; every theorem quantifies over it.
- Exceptions raised by an adapter are modelled with `Except String`;
  `json.dumps` serialization in the database layer is treated as an
  injective encoding, so the stored columns keep the unserialized values.
-/

namespace DG

/-- Whitespace recognised by Python `\s` and `str.strip` on ASCII text. -/
def isPySpace (c : Char) : Bool :=
  c == ' ' || c == '\t' || c == '\n' || c == '\r' || c == '\x0b' || c == '\x0c'

/-- Python `str.strip`: drop leading and trailing whitespace. -/
def pyStrip (cs : List Char) : List Char :=
  ((cs.dropWhile isPySpace).reverse.dropWhile isPySpace).reverse

/-- Digit run to a natural number, as Python `int` on a `\d+` capture. -/
def digitsToNat (ds : List Char) : ℕ :=
  ds.foldl (fun a c => a * 10 + (c.toNat - 48)) 0

/-- Length of the prefix of `l` that ends at its last newline (0 when `l` has
no newline).  Used for the greedy extent of the `\n\s*\n\s*\n` match, which
runs through the last newline of the whitespace run it starts in. -/
def lenThruLastNl (l : List Char) : ℕ :=
  l.length - (l.reverse.takeWhile (fun c => c != '\n')).length

/-- Fuel-indexed body of `collapseRuns`; the fuel only bounds the recursion
and is never exhausted when it starts at the length of the input. -/
def collapseRunsAux : ℕ → List Char → List Char
  | _, [] => []
  | 0, cs => cs
  | fuel + 1, c :: rest =>
    let run := (c :: rest).takeWhile isPySpace
    if c = '\n' ∧ 3 ≤ run.count '\n' then
      '\n' :: '\n' :: collapseRunsAux fuel (rest.drop (lenThruLastNl run - 1))
    else
      c :: collapseRunsAux fuel rest

/-- Python `re.sub(r'\n\s*\n\s*\n', '\n\n', s)`: each leftmost greedy match
(a newline whose maximal whitespace run contains at least three newlines,
matched through the last newline of that run) is replaced by two newlines;
scanning resumes after the replacement. -/
def collapseRuns (cs : List Char) : List Char :=
  collapseRunsAux cs.length cs

/-- Python `re.sub("^LIT\\s*", "", cs, flags=IGNORECASE)` for a literal
pattern `lit` (given lowercase): when the text starts with `lit` up to case,
drop it together with the following whitespace run. -/
def stripLeadIn (lit : List Char) (cs : List Char) : List Char :=
  if (cs.take lit.length).map Char.toLower = lit then
    (cs.drop lit.length).dropWhile isPySpace
  else cs

/-- Python `re.sub(r"^Here\s+", "", cs, flags=IGNORECASE)`: the prefix must
be followed by at least one whitespace character. -/
def stripHere (cs : List Char) : List Char :=
  if (cs.take 4).map Char.toLower = [ 'h', 'e', 'r', 'e'] ∧
      isPySpace ((cs.drop 4).headD 'x') = true then
    (cs.drop 4).dropWhile isPySpace
  else cs

/-- The placeholder answer of `AgentService._clean_response`. -/
def noResponseMsg : List Char :=
  [ 'N', 'o', ' ', 'r', 'e', 's', 'p', 'o', 'n', 's', 'e', ' ',
    'g', 'e', 'n', 'e', 'r', 'a', 't', 'e', 'd', '.']

/-- The core pipeline of `AgentService._clean_response` between the two
emptiness checks: strip, remove the five anchored lead-in patterns in order,
collapse triple newlines, strip again. -/
def cleanCore (cs : List Char) : List Char :=
  let c0 := pyStrip cs
  let c1 := stripHere c0
  let c2 := stripLeadIn [ 'a', 'n', 's', 'w', 'e', 'r', ':'] c1
  let c3 := stripLeadIn [ '(', 'a', 'n', 's', 'w', 'e', 'r', ')', ':'] c2
  let c4 := stripLeadIn [ 'r', 'e', 's', 'p', 'o', 'n', 's', 'e', ':'] c3
  let c5 := stripLeadIn [ 'o', 'u', 't', 'p', 'u', 't', ':'] c4
  pyStrip (collapseRuns c5)

/-- `AgentService._clean_response`: empty input and empty cleaning result
both yield the literal placeholder. -/
def cleanResponseL (cs : List Char) : List Char :=
  if cs = [] then noResponseMsg
  else if cleanCore cs = [] then noResponseMsg
  else cleanCore cs

/-- Round a rational to the nearest integer, ties to even, as Python
`round` on the idealized (exact) value. -/
def roundHalfEven (x : ℚ) : ℤ :=
  let n := ⌊x⌋
  if x - n < 1 / 2 then n
  else if 1 / 2 < x - n then n + 1
  else if n % 2 = 0 then n else n + 1

/-- Python `round(q, 6)` on the idealized decimal value. -/
def pyRound6 (q : ℚ) : ℚ :=
  (roundHalfEven (q * 1000000) : ℚ) / 1000000

/-- `TokenCalculator.token_costs`: rates per 1K tokens, `(input, output)`. -/
def tokenCosts : List (String × ℚ × ℚ) :=
  [ ("gpt-4o", 0.005, 0.015),
    ("gpt-4o-mini", 0.00015, 0.0006),
    ("gpt-3.5-turbo", 0.0015, 0.002),
    ("gpt-4", 0.03, 0.06),
    ("gpt-4-32k", 0.06, 0.12),
    ("llama3-8b-8192", 0.0005, 0.0008),
    ("gemma2-9b-it", 0.0002, 0.0002),
    ("llama-3.3-70b-versatile", 0.0009, 0.0009),
    ("gemini-2.0-flash", 0.00075, 0.003)]

/-- `token_costs.get(model, token_costs['gpt-4o-mini'])`. -/
def getPricing (model : String) : ℚ × ℚ :=
  (tokenCosts.lookup model).getD (0.00015, 0.0006)

/-- `TokenCalculator.model_encodings`: the models with an exact tokenizer. -/
def encodingModels : List String :=
  ["gpt-4o", "gpt-4o-mini", "gpt-3.5-turbo", "gpt-4", "gpt-4-32k"]

/-- `TokenCalculator._estimate_tokens`: `max(1, len(text) // 4)` (Python
floor division). -/
def estimateTokens (cs : List Char) : ℕ :=
  max 1 (cs.length / 4)

/-- `TokenCalculator.count_tokens`; `tik` is the external `tiktoken`
encoder used for the models that have an exact encoding mapping. -/
def countTokens (tik : List Char → String → ℕ) (text : List Char)
    (model : String) : ℕ :=
  if text = [] then 0
  else if model ∈ encodingModels then tik text model
  else estimateTokens text

/-- Modelled from the spec: the fallback heuristic as the spec words it,
`max(1, ceil(characterCount / 4))`, for comparison with the code. -/
def specCeilFallback (cs : List Char) : ℕ :=
  max 1 ((cs.length + 3) / 4)

/-- Characters matched by the regex class `[_\s]`. -/
def isUnderOrSpace (c : Char) : Bool := c == '_' || isPySpace c

/-- Characters matched by the regex class `[:\s]`. -/
def isColonOrSpace (c : Char) : Bool := c == ':' || isPySpace c

/-- Attempt to match `KEYWORD[_\s]*tokens?[:\s]*(\d+)` (case-insensitive,
`kw` given lowercase) at the start of `cs`, returning the captured number.
All character classes are disjoint from the literal that follows them, so
the greedy match is deterministic. -/
def matchKeywordAt (kw : List Char) (cs : List Char) : Option ℕ :=
  if (cs.take kw.length).map Char.toLower = kw then
    let r1 := (cs.drop kw.length).dropWhile isUnderOrSpace
    if (r1.take 5).map Char.toLower = [ 't', 'o', 'k', 'e', 'n'] then
      let r2 := r1.drop 5
      let r3 := if (r2.headD 'x').toLower = 's' then r2.drop 1 else r2
      let r4 := r3.dropWhile isColonOrSpace
      let ds := r4.takeWhile Char.isDigit
      if ds = [] then none else some (digitsToNat ds)
    else none
  else none

/-- `re.findall(pattern, cs, re.IGNORECASE)[0]` for one token pattern: the
leftmost match of `KEYWORD[_\s]*tokens?[:\s]*(\d+)` in `cs`. -/
def firstTokenMatch (kw : List Char) : List Char → Option ℕ
  | [] => none
  | c :: rest =>
    match matchKeywordAt kw (c :: rest) with
    | some n => some n
    | none => firstTokenMatch kw rest

/-- Keyword of the first pattern, `input[_\s]*tokens?[:\s]*(\d+)`. -/
def kwInput : List Char := [ 'i', 'n', 'p', 'u', 't']

/-- Keyword of the second pattern, `prompt[_\s]*tokens?[:\s]*(\d+)`. -/
def kwPrompt : List Char := [ 'p', 'r', 'o', 'm', 'p', 't']

/-- Keyword of the third pattern, `completion[_\s]*tokens?[:\s]*(\d+)`. -/
def kwCompletion : List Char := [ 'c', 'o', 'm', 'p', 'l', 'e', 't', 'i', 'o', 'n']

/-- Keyword of the fourth pattern, `output[_\s]*tokens?[:\s]*(\d+)`. -/
def kwOutput : List Char := [ 'o', 'u', 't', 'p', 'u', 't']

/-- `TokenCalculator.extract_tokens_from_response`: the five patterns are
tried in order (input, prompt, completion, output, total) and each
non-empty result overwrites the slot of its category, so for each slot the
later pattern wins; the `total` pattern result is discarded. -/
def extractTokens (cs : List Char) : Option ℕ × Option ℕ :=
  let i1 := firstTokenMatch kwInput cs
  let i2 := firstTokenMatch kwPrompt cs
  let o1 := firstTokenMatch kwCompletion cs
  let o2 := firstTokenMatch kwOutput cs
  (match i2 with | some n => some n | none => i1,
   match o2 with | some n => some n | none => o1)

/-- The dictionary returned by `TokenCalculator.calculate_tokens_and_cost`. -/
structure TokenData where
  inputTokens : ℕ
  outputTokens : ℕ
  totalTokens : ℕ
  inputCost : ℚ
  outputCost : ℚ
  totalCost : ℚ
  model : String
  pricing : ℚ × ℚ
  deriving DecidableEq

/-- `TokenCalculator.calculate_tokens_and_cost`: actual token counts (when
given) take precedence over counting; costs are `(tokens/1000) * rate`,
each reported component rounded to six decimals and the total being the
rounding of the unrounded sum. -/
def calculateTokensAndCost (tik : List Char → String → ℕ)
    (query response : List Char) (model : String)
    (aIn aOut : Option ℕ) : TokenData :=
  let inputTokens := aIn.getD (countTokens tik query model)
  let outputTokens := aOut.getD (countTokens tik response model)
  let p := getPricing model
  let inputCost := (inputTokens : ℚ) / 1000 * p.1
  let outputCost := (outputTokens : ℚ) / 1000 * p.2
  { inputTokens := inputTokens,
    outputTokens := outputTokens,
    totalTokens := inputTokens + outputTokens,
    inputCost := pyRound6 inputCost,
    outputCost := pyRound6 outputCost,
    totalCost := pyRound6 (inputCost + outputCost),
    model := model,
    pricing := p }

/-- Lines 180 to 190 of `TracingManager.end_trace`: extract actual token
counts from the response, then price the call with them. -/
def endTraceTokenData (tik : List Char → String → ℕ)
    (query response : List Char) (model : String) : TokenData :=
  let e := extractTokens response
  calculateTokensAndCost tik query response model e.1 e.2

/-- The request dictionary accepted by `AgentService.execute_query`; the
fields are read with `.get`, so each may be absent. -/
structure RequestData where
  framework : Option String := none
  model : Option String := none
  vector_store : Option String := none
  query : Option String := none
  deriving DecidableEq

/-- The dictionary an adapter returns from its `execute_query`. -/
structure AdapterResult where
  answer : String
  status : String
  deriving DecidableEq

/-- The result envelope returned by `AgentService.execute_query`; the
wall-clock `duration` field is omitted (real time is not modelled). -/
structure Envelope where
  answer : String
  framework : Option String
  model : String
  vector_store : Option String
  input_tokens : ℕ
  output_tokens : ℕ
  tokens_used : ℕ
  input_cost : ℚ
  output_cost : ℚ
  total_cost : ℚ
  status : String
  error : Option String
  deriving DecidableEq

/-- The arguments of the final `tracing_manager.end_trace` call made by
`AgentService.execute_query`. -/
structure EndTraceArgs where
  status : String
  response : String
  error : Option String
  deriving DecidableEq

/-- `AgentService.execute_query`.  `outcome` is the combined result of the
registry lookup, agent creation and adapter dispatch: `Except.error msg`
models any exception raised inside the `try` block, `Except.ok result`
models a normally returned adapter dictionary.  Returns the envelope and
the arguments of the terminal `end_trace` call. -/
def executeQuery (tik : List Char → String → ℕ) (req : RequestData)
    (outcome : Except String AdapterResult) : Envelope × EndTraceArgs :=
  let model := req.model.getD "gpt-4o-mini"
  let query := (req.query.getD "").data
  match outcome with
  | Except.ok result =>
    let frameworkName := (req.framework.getD "").toLower
    let raw := result.answer.data
    let cleaned := cleanResponseL raw
    let ex := extractTokens raw
    let td := calculateTokensAndCost tik query cleaned model ex.1 ex.2
    ({ answer := String.mk cleaned,
       framework := some frameworkName,
       model := model,
       vector_store := req.vector_store,
       input_tokens := td.inputTokens,
       output_tokens := td.outputTokens,
       tokens_used := td.totalTokens,
       input_cost := td.inputCost,
       output_cost := td.outputCost,
       total_cost := td.totalCost,
       status := "success",
       error := none },
     { status := "completed", response := String.mk cleaned, error := none })
  | Except.error msg =>
    let td := calculateTokensAndCost tik query [] model none none
    ({ answer := "❌ Error: " ++ msg,
       framework := req.framework,
       model := model,
       vector_store := req.vector_store,
       input_tokens := td.inputTokens,
       output_tokens := 0,
       tokens_used := td.inputTokens,
       input_cost := td.inputCost,
       output_cost := 0,
       total_cost := td.inputCost,
       status := "error",
       error := some msg },
     { status := "failed", response := "", error := some msg })

/-- One entry of `FrameworkManager._initialize_frameworks`: the `enabled`
flag and the outcome of importing and instantiating the agent class
(`Except.error e` models an exception raised while loading). -/
structure ConfigEntry (α : Type) where
  enabled : Bool
  outcome : Except String α

/-- The per-framework record stored in `self.frameworks`. -/
structure FrameworkInfo (α : Type) where
  inst : Option α
  status : String
  error : Option String
  config : ConfigEntry α

/-- `FrameworkManager._load_framework`: a load exception is caught and
recorded as a `failed` entry with the error text; success stores the
instance with status `loaded` (and no error key). -/
def loadOne {α : Type} (c : ConfigEntry α) : FrameworkInfo α :=
  match c.outcome with
  | Except.ok a => { inst := some a, status := "loaded", error := none, config := c }
  | Except.error e => { inst := none, status := "failed", error := some e, config := c }

/-- `FrameworkManager._initialize_frameworks`: every enabled config is
loaded independently; the config names are the (distinct) dict keys. -/
def initFrameworks {α : Type} (configs : List (String × ConfigEntry α)) :
    List (String × FrameworkInfo α) :=
  (configs.filter (fun p => p.2.enabled)).map (fun p => (p.1, loadOne p.2))

/-- `FrameworkManager.get_available_frameworks`: name to (status, error). -/
def getAvailableFrameworks {α : Type}
    (fs : List (String × FrameworkInfo α)) :
    List (String × String × Option String) :=
  fs.map (fun p => (p.1, p.2.status, p.2.error))

/-- One row of the `traces` table (`services/database.py`).  The `steps`,
`metrics` and `request_data` JSON blobs are kept as their unserialized
values. -/
structure TraceRow where
  trace_id : String
  session_id : String
  timestamp : String
  status : String
  framework : String
  model : String
  vector_store : String
  query : String
  response : Option String
  end_time : Option String
  total_duration : Option ℚ
  input_tokens : ℕ
  output_tokens : ℕ
  total_tokens : ℕ
  input_cost : ℚ
  output_cost : ℚ
  total_cost : ℚ
  error_message : Option String
  request_data : List (String × String)
  steps : List String
  metrics : List (String × String)
  deriving DecidableEq

/-- The `trace_data` dictionary given to `DatabaseManager.save_trace`; all
fields except `trace_id` are read with `.get` and may be absent. -/
structure TraceData where
  trace_id : String
  session_id : Option String := none
  timestamp : Option String := none
  status : Option String := none
  framework : Option String := none
  model : Option String := none
  vector_store : Option String := none
  query : Option String := none
  response : Option String := none
  end_time : Option String := none
  total_duration : Option ℚ := none
  input_tokens : Option ℕ := none
  output_tokens : Option ℕ := none
  total_tokens : Option ℕ := none
  input_cost : Option ℚ := none
  output_cost : Option ℚ := none
  total_cost : Option ℚ := none
  error_message : Option String := none
  request_data : Option (List (String × String)) := none
  steps : Option (List String) := none
  metrics : Option (List (String × String)) := none
  deriving DecidableEq

/-- The UPDATE branch of `save_trace`: only the mutable columns are set,
with the same defaults the code passes to `.get`. -/
def updateRow (r : TraceRow) (td : TraceData) : TraceRow :=
  { r with
    end_time := td.end_time,
    status := td.status.getD "started",
    response := td.response,
    total_duration := td.total_duration,
    input_tokens := td.input_tokens.getD 0,
    output_tokens := td.output_tokens.getD 0,
    total_tokens := td.total_tokens.getD 0,
    input_cost := td.input_cost.getD 0,
    output_cost := td.output_cost.getD 0,
    total_cost := td.total_cost.getD 0,
    error_message := td.error_message,
    steps := td.steps.getD [],
    metrics := td.metrics.getD [] }

/-- The INSERT branch of `save_trace`: a full new row; `now` is the
`datetime.now().isoformat()` default for a missing timestamp.  The INSERT
column list does not include `end_time`, so it is NULL. -/
def insertRow (now : String) (td : TraceData) : TraceRow :=
  { trace_id := td.trace_id,
    session_id := td.session_id.getD "default",
    timestamp := td.timestamp.getD now,
    status := td.status.getD "started",
    framework := td.framework.getD "unknown",
    model := td.model.getD "unknown",
    vector_store := td.vector_store.getD "unknown",
    query := td.query.getD "",
    response := td.response,
    end_time := none,
    total_duration := td.total_duration,
    input_tokens := td.input_tokens.getD 0,
    output_tokens := td.output_tokens.getD 0,
    total_tokens := td.total_tokens.getD 0,
    input_cost := td.input_cost.getD 0,
    output_cost := td.output_cost.getD 0,
    total_cost := td.total_cost.getD 0,
    error_message := td.error_message,
    request_data := td.request_data.getD [],
    steps := td.steps.getD [],
    metrics := td.metrics.getD [] }

/-- `DatabaseManager.save_trace` over a list model of the `traces` table:
if a row with the trace id exists, UPDATE every matching row in place,
else INSERT a full new row. -/
def saveTrace (now : String) (db : List TraceRow) (td : TraceData) :
    List TraceRow :=
  if ∃ r ∈ db, r.trace_id = td.trace_id then
    db.map (fun r => if r.trace_id = td.trace_id then updateRow r td else r)
  else db ++ [insertRow now td]

/-- Concrete framework configuration used to instantiate the registry
isolation theorem: one broken loader, one sound loader. -/
def sampleConfigs : List (String × ConfigEntry Unit) :=
  [("alpha", { enabled := true, outcome := Except.error "boom" }),
   ("beta", { enabled := true, outcome := Except.ok () })]

/-- Concrete stored trace row used to instantiate the upsert theorem. -/
def sampleRow : TraceRow :=
  { trace_id := "t1", session_id := "s", timestamp := "ts",
    status := "started", framework := "langgraph", model := "gpt-4o-mini",
    vector_store := "faiss", query := "q", response := none,
    end_time := none, total_duration := none,
    input_tokens := 0, output_tokens := 0, total_tokens := 0,
    input_cost := 0, output_cost := 0, total_cost := 0,
    error_message := none, request_data := [], steps := [], metrics := [] }

/-- Trace data matching the id of `sampleRow` (UPDATE branch). -/
def sampleTd : TraceData := { trace_id := "t1", status := some "completed" }

/-- Trace data with a fresh id (INSERT branch). -/
def sampleTd2 : TraceData := { trace_id := "t2" }

theorem cleanResponseL_ne_nil (cs : List Char) : cleanResponseL cs ≠ [] := by
  unfold cleanResponseL
  by_cases h : cs = []
  · simp [h, noResponseMsg]
  · by_cases h2 : cleanCore cs = [] <;> simp [h, h2, noResponseMsg]

/-- Claim C1: for every query, response and model (and any actual counts
and any external tokenizer), the dictionary built by
`calculate_tokens_and_cost` satisfies `totalTokens = inputTokens +
outputTokens`; its reported `inputCost` and `outputCost` are the 6-decimal
roundings of `(tokens/1000) * ratePerKTokens`, and its `totalCost` is the
6-decimal rounding of the sum of the unrounded input and output costs. -/
theorem price_call_invariants (tik : List Char → String → ℕ)
    (query response : List Char) (model : String) (aIn aOut : Option ℕ) :
    (calculateTokensAndCost tik query response model aIn aOut).totalTokens
      = (calculateTokensAndCost tik query response model aIn aOut).inputTokens
        + (calculateTokensAndCost tik query response model aIn aOut).outputTokens
    ∧ (calculateTokensAndCost tik query response model aIn aOut).inputCost
      = pyRound6
          (((calculateTokensAndCost tik query response model aIn aOut).inputTokens : ℚ)
            / 1000 * (getPricing model).1)
    ∧ (calculateTokensAndCost tik query response model aIn aOut).outputCost
      = pyRound6
          (((calculateTokensAndCost tik query response model aIn aOut).outputTokens : ℚ)
            / 1000 * (getPricing model).2)
    ∧ (calculateTokensAndCost tik query response model aIn aOut).totalCost
      = pyRound6
          (((calculateTokensAndCost tik query response model aIn aOut).inputTokens : ℚ)
              / 1000 * (getPricing model).1
            + ((calculateTokensAndCost tik query response model aIn aOut).outputTokens : ℚ)
              / 1000 * (getPricing model).2) :=
  ⟨rfl, rfl, rfl, rfl⟩

/-- Claim C2: when the adapter call raises, `execute_query` returns (it
never throws) an envelope with status `error`, zero output tokens and
output cost, `total_cost` equal to `input_cost` which is the cost of
pricing the query alone against the empty response, and an answer carrying
the failure prefix; the trace is ended with status `failed`, empty
response and the error text. -/
theorem execute_query_error_path (tik : List Char → String → ℕ)
    (req : RequestData) (msg : String) :
    (executeQuery tik req (Except.error msg)).1.status = "error"
    ∧ (executeQuery tik req (Except.error msg)).1.output_tokens = 0
    ∧ (executeQuery tik req (Except.error msg)).1.output_cost = 0
    ∧ (executeQuery tik req (Except.error msg)).1.total_cost
      = (executeQuery tik req (Except.error msg)).1.input_cost
    ∧ (executeQuery tik req (Except.error msg)).1.total_cost
      = (calculateTokensAndCost tik (req.query.getD "").data []
          (req.model.getD "gpt-4o-mini") none none).inputCost
    ∧ (executeQuery tik req (Except.error msg)).1.answer = "❌ Error: " ++ msg
    ∧ (executeQuery tik req (Except.error msg)).2.status = "failed"
    ∧ (executeQuery tik req (Except.error msg)).2.response = ""
    ∧ (executeQuery tik req (Except.error msg)).2.error = some msg :=
  ⟨rfl, rfl, rfl, rfl, rfl, rfl, rfl, rfl, rfl⟩

/-- Claim C9: an adapter result returned without an exception always
yields an envelope with status `success` and a trace ended `completed`,
and the envelope does not depend on the status field the adapter reported,
only on its answer field. -/
theorem execute_query_ignores_adapter_status (tik : List Char → String → ℕ)
    (req : RequestData) (result : AdapterResult) :
    (executeQuery tik req (Except.ok result)).1.status = "success"
    ∧ (executeQuery tik req (Except.ok result)).2.status = "completed"
    ∧ ∀ s : String,
        executeQuery tik req (Except.ok { answer := result.answer, status := s })
          = executeQuery tik req (Except.ok result) :=
  ⟨rfl, rfl, fun _ => rfl⟩

/-- Claim C8: on the concrete request with adapter answer
`"Response: docker ps\n\n\nResult"`, the envelope answer has the
`Response:` lead-in stripped case-insensitively and the triple newline
collapsed to a double one, and the envelope status is `success`. -/
theorem execute_query_clean_scenario :
    (executeQuery (fun _ _ => 0)
        { framework := some "x", model := some "gpt-4o-mini",
          vector_store := some "faiss", query := some "list containers" }
        (Except.ok
          { answer := "Response: docker ps\n\n\nResult",
            status := "success" })).1.answer
      = "docker ps\n\nResult"
    ∧ (executeQuery (fun _ _ => 0)
        { framework := some "x", model := some "gpt-4o-mini",
          vector_store := some "faiss", query := some "list containers" }
        (Except.ok
          { answer := "Response: docker ps\n\n\nResult",
            status := "success" })).1.status
      = "success" := by
  exact ⟨by decide, rfl⟩

/-- Claim C10: an answer that is empty or cleans to the empty string is
replaced by the literal placeholder, so the envelope answer on the success
path is never the empty string. -/
theorem clean_response_placeholder (cs : List Char) :
    ((cs = [] ∨ cleanCore cs = []) → cleanResponseL cs = noResponseMsg)
    ∧ cleanResponseL cs ≠ []
    ∧ ∀ (tik : List Char → String → ℕ) (req : RequestData)
        (result : AdapterResult),
        (executeQuery tik req (Except.ok result)).1.answer ≠ "" := by
  refine ⟨?_, cleanResponseL_ne_nil cs, ?_⟩
  · rintro (h | h) <;> simp [cleanResponseL, h]
  · intro tik req result hcontra
    have hdata := congrArg String.data hcontra
    simp only [executeQuery] at hdata
    exact cleanResponseL_ne_nil result.answer.data hdata

/-- Witness for C10 at two concrete inputs: a pure lead-in answer and a
whitespace-only answer both clean to the placeholder. -/
theorem clean_response_placeholder_witness :
    cleanResponseL ("Response:").data = noResponseMsg
    ∧ cleanResponseL ("   ").data = noResponseMsg :=
  ⟨(clean_response_placeholder ("Response:").data).1 (Or.inr (by decide)),
   (clean_response_placeholder ("   ").data).1 (Or.inr (by decide))⟩

/-- Counterexample to claim C4 as stated: for the five-character text
`"abcde"` and a model without an exact tokenizer mapping, the code returns
`max(1, 5 // 4) = 1` while the claimed formula `max(1, ceil(5 / 4))`
gives 2. -/
theorem count_tokens_ceil_counterexample :
    countTokens (fun _ _ => 0) ("abcde").data "llama3-8b-8192" = 1
    ∧ specCeilFallback ("abcde").data = 2
    ∧ countTokens (fun _ _ => 0) ("abcde").data "llama3-8b-8192"
        ≠ specCeilFallback ("abcde").data :=
  ⟨by decide, by decide, by decide⟩

/-- Claim C4 amended: for a model without an exact tokenizer mapping,
`count_tokens` returns 0 on empty text and `max(1, floor(characterCount /
4))` (floor division, not ceiling) on non-empty text. -/
theorem count_tokens_fallback_floor (tik : List Char → String → ℕ)
    (cs : List Char) (model : String) (h : model ∉ encodingModels) :
    countTokens tik cs model = if cs = [] then 0 else max 1 (cs.length / 4) := by
  by_cases hc : cs = []
  · simp [countTokens, hc]
  · simp [countTokens, hc, h, estimateTokens]

/-- Witness for the amended C4 at a concrete input: seven characters give
`max(1, 7 // 4) = 1` for a model with no tokenizer mapping. -/
theorem count_tokens_fallback_floor_witness :
    countTokens (fun _ _ => 0) ("abcdefg").data "claude" = 1 :=
  (count_tokens_fallback_floor (fun _ _ => 0) ("abcdefg").data "claude"
    (by decide)).trans (by decide)

/-- Counterexample to claim C5 as stated: in a text where
`"input tokens: 10"` appears before `"prompt tokens: 20"` (both of the
input category), the extraction returns 20, not the first match 10,
because the prompt pattern is tried after the input pattern and its result
overwrites the slot. -/
theorem extract_first_match_counterexample :
    (extractTokens ("input tokens: 10 prompt tokens: 20").data).1 = some 20
    ∧ (extractTokens ("input tokens: 10 prompt tokens: 20").data).1 ≠ some 10 :=
  ⟨by decide, by decide⟩

/-- Claim C5 amended: within each single pattern the first match in the
text wins, but between the two patterns of one category the later pattern
of the fixed list wins: a prompt-pattern match overrides any input-pattern
match, and an output-pattern match overrides any completion-pattern match;
only when the later pattern has no match does the earlier pattern supply
the value. -/
theorem extract_last_pattern_wins (cs : List Char) :
    ((firstTokenMatch kwPrompt cs).isSome = true →
        (extractTokens cs).1 = firstTokenMatch kwPrompt cs)
    ∧ (firstTokenMatch kwPrompt cs = none →
        (extractTokens cs).1 = firstTokenMatch kwInput cs)
    ∧ ((firstTokenMatch kwOutput cs).isSome = true →
        (extractTokens cs).2 = firstTokenMatch kwOutput cs)
    ∧ (firstTokenMatch kwOutput cs = none →
        (extractTokens cs).2 = firstTokenMatch kwCompletion cs) := by
  refine ⟨?_, ?_, ?_, ?_⟩ <;> intro h
  · cases hp : firstTokenMatch kwPrompt cs with
    | some n => simp [extractTokens, hp]
    | none => rw [hp] at h; cases h
  · simp [extractTokens, h]
  · cases ho : firstTokenMatch kwOutput cs with
    | some n => simp [extractTokens, ho]
    | none => rw [ho] at h; cases h
  · simp [extractTokens, h]

/-- Witness for the amended C5: with both input and prompt matches the
prompt value 20 wins; with only an input match its first value is used. -/
theorem extract_last_pattern_wins_witness :
    (extractTokens ("input tokens: 10 prompt tokens: 20").data).1 = some 20
    ∧ (extractTokens ("input tokens: 7").data).1 = some 7 :=
  ⟨((extract_last_pattern_wins ("input tokens: 10 prompt tokens: 20").data).1
      (by decide)).trans (by decide),
   ((extract_last_pattern_wins ("input tokens: 7").data).2.1
      (by decide)).trans (by decide)⟩

/-- Counterexample to claim C6 as stated: a response containing
`"input tokens: 37"` does not always make the pipeline use 37, because a
prompt-pattern match overrides it; with response
`"input tokens: 37 prompt tokens: 50"` the priced input token count
is 50. -/
theorem price_call_uses_37_counterexample :
    (endTraceTokenData (fun _ _ => 0) ("q").data
        ("input tokens: 37 prompt tokens: 50").data "gpt-4o-mini").inputTokens = 50
    ∧ (endTraceTokenData (fun _ _ => 0) ("q").data
        ("input tokens: 37 prompt tokens: 50").data "gpt-4o-mini").inputTokens ≠ 37 :=
  ⟨by decide, by decide⟩

/-- Claim C6 amended: whenever the in-band extraction of the response
resolves the input category to 37 (for example when the only input-category
match is `"input tokens: 37"`), the pricing pipeline uses 37 as the input
token count instead of the character-based estimate of the query, while
the output token count is resolved independently: the output-category
extraction if present, otherwise the count of the response. -/
theorem price_call_uses_extracted_input (tik : List Char → String → ℕ)
    (query response : List Char) (model : String)
    (h : (extractTokens response).1 = some 37) :
    (endTraceTokenData tik query response model).inputTokens = 37
    ∧ (endTraceTokenData tik query response model).outputTokens
      = ((extractTokens response).2).getD (countTokens tik response model) := by
  constructor
  · simp [endTraceTokenData, calculateTokensAndCost, h]
  · rfl

/-- Witness for the amended C6: with response exactly
`"input tokens: 37"` the priced input token count is 37. -/
theorem price_call_uses_extracted_input_witness :
    (endTraceTokenData (fun _ _ => 0) ("q").data
        ("input tokens: 37").data "claude").inputTokens = 37 :=
  (price_call_uses_extracted_input (fun _ _ => 0) ("q").data
    ("input tokens: 37").data "claude" (by decide)).1

theorem lookup_initFrameworks {α : Type} (configs : List (String × ConfigEntry α))
    (n : String) (c : ConfigEntry α)
    (hnd : (configs.map Prod.fst).Nodup) (h : (n, c) ∈ configs)
    (he : c.enabled = true) :
    List.lookup n (getAvailableFrameworks (initFrameworks configs))
      = some ((loadOne c).status, (loadOne c).error) := by
  induction configs with
  | nil => cases h
  | cons hd tl ih =>
    obtain ⟨m, d⟩ := hd
    simp only [List.map_cons, List.nodup_cons] at hnd
    rcases List.mem_cons.mp h with heq | htl
    · have hn : n = m := congrArg Prod.fst heq
      have hc : c = d := congrArg Prod.snd heq
      subst hc; subst hn
      simp [initFrameworks, getAvailableFrameworks, he, List.lookup]
    · have hm : (n == m) = false := by
        apply beq_eq_false_iff_ne.mpr
        intro hnm
        exact hnd.1 (hnm ▸ List.mem_map_of_mem Prod.fst htl)
      have ihh := ih hnd.2 htl
      by_cases hde : d.enabled = true
      · simp only [initFrameworks, List.filter_cons, hde, if_true,
          List.map_cons, getAvailableFrameworks, List.lookup, hm] at ihh ⊢
        exact ihh
      · simp only [initFrameworks, List.filter_cons, hde, if_false,
          getAvailableFrameworks] at ihh ⊢
        exact ihh

/-- Claim C3: with distinct registered names, a loader that raises during
initialization is recorded as a `failed` entry carrying the error text
without preventing any other loader from loading; a sound loader is
reported `loaded`, and initialization (a total function here) never
propagates the failure. -/
theorem framework_load_isolation {α : Type}
    (configs : List (String × ConfigEntry α)) (A B : String)
    (cA cB : ConfigEntry α) (e : String) (b : α)
    (_hAB : A ≠ B)
    (hnd : (configs.map Prod.fst).Nodup)
    (hA : (A, cA) ∈ configs) (hAe : cA.enabled = true)
    (hAo : cA.outcome = Except.error e)
    (hB : (B, cB) ∈ configs) (hBe : cB.enabled = true)
    (hBo : cB.outcome = Except.ok b) :
    List.lookup A (getAvailableFrameworks (initFrameworks configs))
      = some ("failed", some e)
    ∧ List.lookup B (getAvailableFrameworks (initFrameworks configs))
      = some ("loaded", none) := by
  constructor
  · rw [lookup_initFrameworks configs A cA hnd hA hAe]
    simp [loadOne, hAo]
  · rw [lookup_initFrameworks configs B cB hnd hB hBe]
    simp [loadOne, hBo]

/-- Witness for C3 on the concrete two-entry configuration: the broken
loader `alpha` is reported failed with its error while `beta` is loaded. -/
theorem framework_load_isolation_witness :
    List.lookup "alpha" (getAvailableFrameworks (initFrameworks sampleConfigs))
      = some ("failed", some "boom")
    ∧ List.lookup "beta" (getAvailableFrameworks (initFrameworks sampleConfigs))
      = some ("loaded", none) :=
  framework_load_isolation sampleConfigs "alpha" "beta"
    { enabled := true, outcome := Except.error "boom" }
    { enabled := true, outcome := Except.ok () } "boom" ()
    (by decide) (by decide)
    (by unfold sampleConfigs; exact List.mem_cons_self _ _) rfl rfl
    (by unfold sampleConfigs;
        exact List.mem_cons_of_mem _ (List.mem_cons_self _ _)) rfl rfl

/-- Claim C7: `save_trace` is an upsert.  When a row with the trace id
exists, the table keeps its size and every matching row is replaced by an
update that changes only the mutable columns (status, end time, response,
duration, token and cost fields, error message, steps, metrics) and keeps
the identity columns (trace id, session id, timestamp, framework, model,
vector store, query, request data) unchanged; when no row matches, a full
new row is appended. -/
theorem save_trace_upsert (now : String) (db : List TraceRow) (td : TraceData) :
    ((∃ r ∈ db, r.trace_id = td.trace_id) →
      (saveTrace now db td).length = db.length
      ∧ ∀ r ∈ db, r.trace_id = td.trace_id →
          updateRow r td ∈ saveTrace now db td
          ∧ (updateRow r td).trace_id = r.trace_id
          ∧ (updateRow r td).session_id = r.session_id
          ∧ (updateRow r td).timestamp = r.timestamp
          ∧ (updateRow r td).framework = r.framework
          ∧ (updateRow r td).model = r.model
          ∧ (updateRow r td).vector_store = r.vector_store
          ∧ (updateRow r td).query = r.query
          ∧ (updateRow r td).request_data = r.request_data
          ∧ (updateRow r td).status = td.status.getD "started"
          ∧ (updateRow r td).end_time = td.end_time
          ∧ (updateRow r td).response = td.response
          ∧ (updateRow r td).total_duration = td.total_duration
          ∧ (updateRow r td).input_tokens = td.input_tokens.getD 0
          ∧ (updateRow r td).output_tokens = td.output_tokens.getD 0
          ∧ (updateRow r td).total_tokens = td.total_tokens.getD 0
          ∧ (updateRow r td).input_cost = td.input_cost.getD 0
          ∧ (updateRow r td).output_cost = td.output_cost.getD 0
          ∧ (updateRow r td).total_cost = td.total_cost.getD 0
          ∧ (updateRow r td).error_message = td.error_message
          ∧ (updateRow r td).steps = td.steps.getD []
          ∧ (updateRow r td).metrics = td.metrics.getD [])
    ∧ ((∀ r ∈ db, r.trace_id ≠ td.trace_id) →
        saveTrace now db td = db ++ [insertRow now td]) := by
  constructor
  · intro hex
    have hif : saveTrace now db td
        = db.map (fun r => if r.trace_id = td.trace_id then updateRow r td else r) := by
      unfold saveTrace; rw [if_pos hex]
    constructor
    · rw [hif]; exact List.length_map _ _
    · intro r hr hrid
      refine ⟨?_, rfl, rfl, rfl, rfl, rfl, rfl, rfl, rfl, rfl, rfl, rfl,
        rfl, rfl, rfl, rfl, rfl, rfl, rfl, rfl, rfl, rfl⟩
      rw [hif]
      exact List.mem_map.mpr ⟨r, hr, by rw [if_pos hrid]⟩
  · intro hall
    have hne : ¬ ∃ r ∈ db, r.trace_id = td.trace_id := by
      rintro ⟨r, hr, hrid⟩; exact hall r hr hrid
    unfold saveTrace; rw [if_neg hne]

/-- Witness for C7: updating an existing row keeps the table size; saving
under a fresh id appends the full inserted row. -/
theorem save_trace_upsert_witness :
    (saveTrace "now" [sampleRow] sampleTd).length = 1
    ∧ saveTrace "now" [sampleRow] sampleTd2 = [sampleRow] ++ [insertRow "now" sampleTd2] :=
  ⟨((save_trace_upsert "now" [sampleRow] sampleTd).1
      ⟨sampleRow, List.mem_cons_self _ _, rfl⟩).1,
   (save_trace_upsert "now" [sampleRow] sampleTd2).2 (by decide)⟩

end DG
